import Mathlib

/-!
# Verification of the Vprops scroll choreographer and carousel

Shallow embedding of the animation logic of `src/App.jsx`:

* the scroll choreographer (`getTargetFromScroll`, the `animate` tick,
  waypoints, the sticky/animation regimes and the `wasInAnimationPhase`
  flag), and
* the card-fan carousel (`startAutoSwitch`, `stopAutoSwitch`, the wheel
  handler, hover enter/leave).

JavaScript numbers are modelled as rationals (`ℚ`); numeric literals are
taken as the decimal fractions written in the source.  The per-tick
`requestAnimationFrame` driven mutation of the pose is modelled as an
explicit state-transition function `animateTick`, and the carousel's
timer/DOM-event driven mutation as a step function `cardStep` over an
event type.
-/

set_option autoImplicit false

namespace Vprops

/-- Pose of the scroll-animated element: the five fields the `animate`
loop mutates (the `current` object in `App.jsx`). -/
structure Pose where
  x : ℚ
  y : ℚ
  rotX : ℚ
  rotY : ℚ
  scale : ℚ
deriving DecidableEq, Repr

/-- One choreography waypoint (`App.jsx`, the `waypoints` array):
a scroll-progress checkpoint with its five-field target. -/
structure Waypoint where
  scrollStart : ℚ
  x : ℚ
  y : ℚ
  rotX : ℚ
  rotY : ℚ
  scale : ℚ
deriving DecidableEq, Repr

instance : Inhabited Waypoint := ⟨⟨0, 0, 0, 0, 0, 0⟩⟩

/-- Pose part of a waypoint (the `animate` loop only uses the five
target fields of a bracketing waypoint). -/
def poseOf (w : Waypoint) : Pose := ⟨w.x, w.y, w.rotX, w.rotY, w.scale⟩

/-- App.jsx line 325: `const STICKY_THRESHOLD = 150`. -/
def STICKY_THRESHOLD : ℚ := 150

/-- App.jsx line 327:
`const RELEASE_Y = 56 - (STICKY_THRESHOLD / winHeight * 100)`. -/
def RELEASE_Y (winHeight : ℚ) : ℚ := 56 - STICKY_THRESHOLD / winHeight * 100

/-- App.jsx lines 329-337: the fixed waypoint sequence (decimal literals
as exact rationals: 0.08 = 8/100, 0.28 = 28/100, 0.48 = 48/100,
0.63 = 63/100, 0.78 = 78/100, 0.3 = 3/10). -/
def waypoints (winHeight : ℚ) : List Waypoint :=
  [ ⟨0,      30, RELEASE_Y winHeight, 0, 0, 1⟩,
    ⟨8/100,  85, 35, 45,  90,  1⟩,
    ⟨28/100, 15, 55, 90,  180, 1⟩,
    ⟨48/100, 80, 65, 135, 270, 1⟩,
    ⟨63/100, 50, 50, 180, 360, 1⟩,
    ⟨78/100, 10, 85, 270, 540, 1⟩,
    ⟨1,      50, 92, 360, 720, 3/10⟩ ]

/-- Waypoint at index `i` (the array is fixed with 7 entries). -/
def wpAt (winHeight : ℚ) (i : Fin 7) : Waypoint :=
  (waypoints winHeight).getD i default

/-- App.jsx line 343:
`const lerp = (start, end, factor) => start + (end - start) * factor`
(the second parameter is renamed, `end` being a keyword). -/
def lerp (start stop factor : ℚ) : ℚ := start + (stop - start) * factor

/-- App.jsx lines 349-355: the linear scan in `getTargetFromScroll` that
finds the first pair of consecutive waypoints whose `scrollStart`s
bracket the progress value (`from`/`to` with `break` on first hit);
`none` when no consecutive pair brackets it. -/
def findBracket : List Waypoint → ℚ → Option (Waypoint × Waypoint)
  | w1 :: w2 :: rest, p =>
      if w1.scrollStart ≤ p ∧ p < w2.scrollStart then some (w1, w2)
      else findBracket (w2 :: rest) p
  | _, _ => none

/-- App.jsx line 365: the quadratic ease-in-out curve
`t = progress < 0.5 ? 2*progress*progress : 1 - Math.pow(-2*progress + 2, 2)/2`. -/
def easeInOutQuad (progress : ℚ) : ℚ :=
  if progress < 1/2 then 2 * progress * progress
  else 1 - (-2 * progress + 2) ^ 2 / 2

/-- App.jsx lines 345-374, `getTargetFromScroll(scrollVH)`: bracket
lookup, last-waypoint cutoff, zero-range guard, then eased linear
interpolation of the five fields.  When the loop finds no bracket,
`from` and `to` keep their initial value `waypoints[0]`. -/
def getTargetFromScroll (winHeight : ℚ) (scrollVH : ℚ) : Pose :=
  let wps := waypoints winHeight
  let w0 := wps.getD 0 default
  let br := (findBracket wps scrollVH).getD (w0, w0)
  let fromW := br.1
  let toW := br.2
  let lastW := wps.getD (wps.length - 1) default
  if lastW.scrollStart ≤ scrollVH then poseOf lastW
  else
    let range := toW.scrollStart - fromW.scrollStart
    if range ≤ 0 then poseOf fromW
    else
      let progress := (scrollVH - fromW.scrollStart) / range
      let t := easeInOutQuad progress
      ⟨fromW.x + (toW.x - fromW.x) * t,
       fromW.y + (toW.y - fromW.y) * t,
       fromW.rotX + (toW.rotX - fromW.rotX) * t,
       fromW.rotY + (toW.rotY - fromW.rotY) * t,
       fromW.scale + (toW.scale - fromW.scale) * t⟩

/-- State owned by the `animate` loop: the mutable pose `current`
(App.jsx line 340) and the `wasInAnimationPhase` flag (line 341). -/
structure AnimState where
  current : Pose
  wasInAnimationPhase : Bool
deriving DecidableEq, Repr

/-- App.jsx lines 414-417: normalized scroll progress over the
remaining scrollable distance, with the zero/negative-range guard
(`adjustedMax > 0 ? adjustedScroll / adjustedMax : 0`).
`scrollHeight` is `document.documentElement.scrollHeight`. -/
def scrollProgressOf (winHeight scrollHeight scrollY : ℚ) : ℚ :=
  let maxScroll := scrollHeight - winHeight
  let adjustedScroll := scrollY - STICKY_THRESHOLD
  let adjustedMax := maxScroll - STICKY_THRESHOLD
  if adjustedMax > 0 then adjustedScroll / adjustedMax else 0

/-- App.jsx line 418: the progress value actually passed to
`getTargetFromScroll`, clamped by `Math.max(0, Math.min(1, scrollProgress))`. -/
def clampedProgress (winHeight scrollHeight scrollY : ℚ) : ℚ :=
  max 0 (min 1 (scrollProgressOf winHeight scrollHeight scrollY))

/-- App.jsx lines 376-434, one invocation of `animate` (one animation
tick), without the DOM/render writes (`container.style.transform`,
`modelRotationRef`), which are outputs derived from the new state. -/
def animateTick (winHeight scrollHeight scrollY : ℚ) (s : AnimState) : AnimState :=
  if scrollY < STICKY_THRESHOLD then
    -- sticky regime, lines 380-409
    let targetY := 56 - scrollY / winHeight * 100
    if s.wasInAnimationPhase then
      let c := s.current
      let c' : Pose :=
        ⟨lerp c.x 30 (1/10), lerp c.y targetY (1/10),
         lerp c.rotX 0 (8/100), lerp c.rotY 0 (8/100),
         lerp c.scale 1 (1/10)⟩
      -- line 390: convergence check on the updated pose
      if |c'.x - 30| < 5/100 ∧ |c'.rotX| < 1/10 ∧ |c'.rotY| < 1/10 then
        ⟨c', false⟩
      else
        ⟨c', true⟩
    else
      ⟨⟨30, targetY, 0, 0, 1⟩, false⟩
  else
    -- animation regime, lines 412-433
    let target := getTargetFromScroll winHeight (clampedProgress winHeight scrollHeight scrollY)
    let c := s.current
    ⟨⟨lerp c.x target.x (6/100), lerp c.y target.y (6/100),
      lerp c.rotX target.rotX (5/100), lerp c.rotY target.rotY (5/100),
      lerp c.scale target.scale (6/100)⟩, true⟩

/-- Modelled from the spec (section 8 and 4.1): the sticky-regime target
pose as the specification words it — x/rotX/rotY/scale at the rest
values (30, 0, 0, 1) and y at `56 − offset/viewportHeight·100`.
Compared against the targets the code's tick actually uses. -/
def specStickyTarget (winHeight scrollY : ℚ) : Pose :=
  ⟨30, 56 - scrollY / winHeight * 100, 0, 0, 1⟩

/-! ## Carousel (CardFan component) -/

/-- State of the `CardFan` component: `activeCard` (React state),
`isHoveringRef`, `scrollAccum` and whether the auto-switch interval is
currently installed (`intervalRef.current !== null`). -/
structure CardState where
  activeCard : ℤ
  isHovering : Bool
  scrollAccum : ℚ
  autoRunning : Bool
deriving DecidableEq, Repr

/-- App.jsx line 102 / 127: `prev >= 6 ? 1 : prev + 1`. -/
def advanceCard (prev : ℤ) : ℤ := if prev ≥ 6 then 1 else prev + 1

/-- App.jsx line 130: `prev <= 1 ? 6 : prev - 1`. -/
def retreatCard (prev : ℤ) : ℤ := if prev ≤ 1 then 6 else prev - 1

/-- App.jsx lines 99-104, `startAutoSwitch`: installs the interval
unless one is already running. -/
def startAutoSwitch (s : CardState) : CardState :=
  if s.autoRunning then s else { s with autoRunning := true }

/-- App.jsx lines 106-111, `stopAutoSwitch`: clears the interval. -/
def stopAutoSwitch (s : CardState) : CardState :=
  { s with autoRunning := false }

/-- One firing of the 4-second interval (App.jsx lines 101-103).  A
cleared interval does not fire, so firing is a no-op unless the
interval is installed. -/
def autoSwitchFire (s : CardState) : CardState :=
  if s.autoRunning then { s with activeCard := advanceCard s.activeCard } else s

/-- App.jsx lines 120-133, `handleWheel` (with `e.preventDefault()` and
the listener plumbing dropped): accumulate the wheel delta and step the
card once the accumulator leaves (-80, 80]. -/
def handleWheel (deltaY : ℚ) (s : CardState) : CardState :=
  if ¬ s.isHovering then s
  else
    let acc := s.scrollAccum + deltaY
    if acc > 80 then
      { s with activeCard := advanceCard s.activeCard, scrollAccum := 0 }
    else if acc < -80 then
      { s with activeCard := retreatCard s.activeCard, scrollAccum := 0 }
    else
      { s with scrollAccum := acc }

/-- App.jsx lines 139-142, `handleMouseEnter`: record hovering, stop
the auto switch. -/
def handleMouseEnter (s : CardState) : CardState :=
  stopAutoSwitch { s with isHovering := true }

/-- App.jsx lines 144-148, `handleMouseLeave`: clear hovering, reset
the accumulator, restart the auto switch. -/
def handleMouseLeave (s : CardState) : CardState :=
  startAutoSwitch { s with isHovering := false, scrollAccum := 0 }

/-- The events that can reach the carousel state. -/
inductive CardEvent where
  | intervalFire
  | wheel (deltaY : ℚ)
  | mouseEnter
  | mouseLeave
deriving DecidableEq, Repr

/-- Dispatch of one event to the carousel state. -/
def cardStep (s : CardState) : CardEvent → CardState
  | CardEvent.intervalFire => autoSwitchFire s
  | CardEvent.wheel d => handleWheel d s
  | CardEvent.mouseEnter => handleMouseEnter s
  | CardEvent.mouseLeave => handleMouseLeave s

/-- Initial carousel state: `useState(1)` for the card, not hovering,
zero accumulator, and the mount effect (line 114) has started the
interval. -/
def initCardState : CardState := ⟨1, false, 0, true⟩

/-- Iterated per-tick blend of one pose field toward a fixed target:
the recurrence a field follows across ticks when the target is held
constant (`current.x = lerp(current.x, target.x, factor)` once per
tick, App.jsx lines 384-388 and 420-424). -/
def blendIter (factor target x0 : ℚ) : ℕ → ℚ
  | 0 => x0
  | n + 1 => lerp (blendIter factor target x0 n) target factor

/-! ## Spec-side comparison predicates -/

/-- One field of the new pose relates to the old pose and the target as
an exponential blend does: it equals the target only if the old value
already did, and its distance to the target has not grown. -/
def fieldBlendsToward (old new tgt : ℚ) : Prop :=
  (new = tgt ↔ old = tgt) ∧ |new - tgt| ≤ |old - tgt|

/-- All five pose fields blend toward the target, none snapped. -/
def blendsToward (old new tgt : Pose) : Prop :=
  fieldBlendsToward old.x new.x tgt.x ∧
  fieldBlendsToward old.y new.y tgt.y ∧
  fieldBlendsToward old.rotX new.rotX tgt.rotX ∧
  fieldBlendsToward old.rotY new.rotY tgt.rotY ∧
  fieldBlendsToward old.scale new.scale tgt.scale

/-- Values `u` (at the earlier progress) and `v` (at the later one) are
ordered the way the field moves from waypoint value `a` to waypoint
value `b`. -/
def fieldDirected (a b u v : ℚ) : Prop :=
  (a ≤ b → u ≤ v) ∧ (b ≤ a → v ≤ u)

/-- Pose `P` at the earlier progress and pose `Q` at the later one are
ordered field-by-field the way the fields move from waypoint `A` to
waypoint `B`. -/
def poseDirected (A B : Waypoint) (P Q : Pose) : Prop :=
  fieldDirected A.x B.x P.x Q.x ∧ fieldDirected A.y B.y P.y Q.y ∧
  fieldDirected A.rotX B.rotX P.rotX Q.rotX ∧ fieldDirected A.rotY B.rotY P.rotY Q.rotY ∧
  fieldDirected A.scale B.scale P.scale Q.scale

/-- Value `v` does not overshoot the segment between `a` and `b`. -/
def fieldBetween (a b v : ℚ) : Prop :=
  (a ≤ b → a ≤ v ∧ v ≤ b) ∧ (b ≤ a → b ≤ v ∧ v ≤ a)

/-- Pose `P` lies field-by-field between waypoints `A` and `B`. -/
def poseBetween (A B : Waypoint) (P : Pose) : Prop :=
  fieldBetween A.x B.x P.x ∧ fieldBetween A.y B.y P.y ∧
  fieldBetween A.rotX B.rotX P.rotX ∧ fieldBetween A.rotY B.rotY P.rotY ∧
  fieldBetween A.scale B.scale P.scale

/-! ## Helper lemmas -/

/-- A lerp with factor other than 1 lands on the target iff it started
there. -/
theorem lerp_eq_target_iff (x t f : ℚ) (hf : f ≠ 1) : lerp x t f = t ↔ x = t := by
  unfold lerp
  constructor
  · intro h
    have h2 : (x - t) * (1 - f) = 0 := by linear_combination h
    rcases mul_eq_zero.mp h2 with h3 | h3
    · linarith
    · exact absurd (by linarith : f = 1) hf
  · intro h
    rw [h]; ring

/-- A lerp with factor in [0, 1] does not move away from the target. -/
theorem lerp_dist_le (x t f : ℚ) (h0 : 0 ≤ f) (h1 : f ≤ 1) :
    |lerp x t f - t| ≤ |x - t| := by
  unfold lerp
  have he : x + (t - x) * f - t = (1 - f) * (x - t) := by ring
  rw [he, abs_mul, abs_of_nonneg (by linarith : (0:ℚ) ≤ 1 - f)]
  nlinarith [abs_nonneg (x - t)]

/-- One field of the per-tick blend satisfies `fieldBlendsToward`. -/
theorem lerp_fieldBlendsToward (x t f : ℚ) (h0 : 0 ≤ f) (h1 : f < 1) :
    fieldBlendsToward x (lerp x t f) t :=
  ⟨lerp_eq_target_iff x t f (ne_of_lt h1), lerp_dist_le x t f h0 h1.le⟩

/-- Unfolding of one tick in the sticky regime with the flag clear:
the pose is snapped to the rest values and the linear y. -/
theorem animateTick_sticky_snap (wh sh sy : ℚ) (s : AnimState)
    (h : sy < STICKY_THRESHOLD) (hf : s.wasInAnimationPhase = false) :
    animateTick wh sh sy s = ⟨⟨30, 56 - sy / wh * 100, 0, 0, 1⟩, false⟩ := by
  simp [animateTick, if_pos h, hf]

/-- Unfolding of one tick in the sticky regime with the flag set: the
pose blends toward the rest values and the linear y with factors
0.1/0.1/0.08/0.08/0.1. -/
theorem animateTick_sticky_blend (wh sh sy : ℚ) (s : AnimState)
    (h : sy < STICKY_THRESHOLD) (hf : s.wasInAnimationPhase = true) :
    (animateTick wh sh sy s).current =
      ⟨lerp s.current.x 30 (1/10), lerp s.current.y (56 - sy / wh * 100) (1/10),
       lerp s.current.rotX 0 (8/100), lerp s.current.rotY 0 (8/100),
       lerp s.current.scale 1 (1/10)⟩ := by
  simp only [animateTick, if_pos h, hf, if_true]
  split <;> rfl

/-- Unfolding of one tick in the animation regime: the pose blends
toward the waypoint-interpolated target with factors
0.06/0.06/0.05/0.05/0.06 and the flag is set. -/
theorem animateTick_anim (wh sh sy : ℚ) (s : AnimState) (h : STICKY_THRESHOLD ≤ sy) :
    animateTick wh sh sy s =
      ⟨⟨lerp s.current.x (getTargetFromScroll wh (clampedProgress wh sh sy)).x (6/100),
        lerp s.current.y (getTargetFromScroll wh (clampedProgress wh sh sy)).y (6/100),
        lerp s.current.rotX (getTargetFromScroll wh (clampedProgress wh sh sy)).rotX (5/100),
        lerp s.current.rotY (getTargetFromScroll wh (clampedProgress wh sh sy)).rotY (5/100),
        lerp s.current.scale (getTargetFromScroll wh (clampedProgress wh sh sy)).scale (6/100)⟩,
       true⟩ := by
  simp [animateTick, if_neg (not_lt.mpr h)]

/-! ## Claim theorems -/

/-- C1 counterexample: the claim "in both the sticky and animation
regimes, no pose field is set directly (snapped) to its target value;
after one tick a field equals its target only if it was already equal
before the tick" fails in the sticky regime with the was-animating flag
clear.  At viewport height 800, scroll offset 0 and pose x = 0 (target
x = 30), a single tick sets x to exactly its target. -/
theorem c1_snap_counterexample :
    ((⟨⟨0, 0, 0, 0, 0⟩, false⟩ : AnimState).current.x ≠ (specStickyTarget 800 0).x) ∧
    (animateTick 800 2000 0 ⟨⟨0, 0, 0, 0, 0⟩, false⟩).current.x = (specStickyTarget 800 0).x := by
  constructor
  · norm_num [specStickyTarget]
  · norm_num [animateTick, specStickyTarget, STICKY_THRESHOLD, lerp]

/-- C1 (amended): in the animation regime, and in the sticky regime
while the was-animating flag is set, no pose field is snapped to its
target: each of the five fields moves toward its target by an
exponential per-tick blend (factors 0.06/0.05 resp. 0.1/0.08, rotation
blending more slowly than position), so after one tick a field equals
its target only if it was already equal.  In the sticky regime with the
flag clear, all five fields are set directly to the rest/linear-y
target. -/
theorem c1_blend_never_snaps (wh sh sy : ℚ) (s : AnimState) :
    (STICKY_THRESHOLD ≤ sy →
      blendsToward s.current (animateTick wh sh sy s).current
        (getTargetFromScroll wh (clampedProgress wh sh sy))) ∧
    (sy < STICKY_THRESHOLD → s.wasInAnimationPhase = true →
      blendsToward s.current (animateTick wh sh sy s).current (specStickyTarget wh sy)) ∧
    (sy < STICKY_THRESHOLD → s.wasInAnimationPhase = false →
      (animateTick wh sh sy s).current = specStickyTarget wh sy) := by
  refine ⟨?_, ?_, ?_⟩
  · intro h
    rw [animateTick_anim wh sh sy s h]
    exact ⟨lerp_fieldBlendsToward _ _ _ (by norm_num) (by norm_num),
           lerp_fieldBlendsToward _ _ _ (by norm_num) (by norm_num),
           lerp_fieldBlendsToward _ _ _ (by norm_num) (by norm_num),
           lerp_fieldBlendsToward _ _ _ (by norm_num) (by norm_num),
           lerp_fieldBlendsToward _ _ _ (by norm_num) (by norm_num)⟩
  · intro h hf
    rw [animateTick_sticky_blend wh sh sy s h hf]
    exact ⟨lerp_fieldBlendsToward _ _ _ (by norm_num) (by norm_num),
           lerp_fieldBlendsToward _ _ _ (by norm_num) (by norm_num),
           lerp_fieldBlendsToward _ _ _ (by norm_num) (by norm_num),
           lerp_fieldBlendsToward _ _ _ (by norm_num) (by norm_num),
           lerp_fieldBlendsToward _ _ _ (by norm_num) (by norm_num)⟩
  · intro h hf
    rw [animateTick_sticky_snap wh sh sy s h hf]
    rfl

/-- C1 witness: the amended theorem applied in the animation regime at
a concrete tick. -/
theorem c1_blend_never_snaps_witness :
    blendsToward (⟨0, 0, 0, 0, 0⟩ : Pose)
      (animateTick 800 2000 200 ⟨⟨0, 0, 0, 0, 0⟩, true⟩).current
      (getTargetFromScroll 800 (clampedProgress 800 2000 200)) :=
  (c1_blend_never_snaps 800 2000 200 ⟨⟨0, 0, 0, 0, 0⟩, true⟩).1
    (by norm_num [STICKY_THRESHOLD])

/-- C2: for every scroll offset strictly below the 150 px threshold,
the target pose the tick works toward has x = 30, rotX = 0, rotY = 0,
scale = 1 and y = 56 − offset/viewportHeight·100: the pose is snapped
to exactly that pose when the was-animating flag is clear, and blended
toward exactly that pose (factors 0.1/0.1/0.08/0.08/0.1) when it is
set. -/
theorem c2_sticky_target (wh sh sy : ℚ) (s : AnimState) (h : sy < 150) :
    (s.wasInAnimationPhase = false →
       (animateTick wh sh sy s).current = specStickyTarget wh sy) ∧
    (s.wasInAnimationPhase = true →
       (animateTick wh sh sy s).current =
         ⟨lerp s.current.x (specStickyTarget wh sy).x (1/10),
          lerp s.current.y (specStickyTarget wh sy).y (1/10),
          lerp s.current.rotX (specStickyTarget wh sy).rotX (8/100),
          lerp s.current.rotY (specStickyTarget wh sy).rotY (8/100),
          lerp s.current.scale (specStickyTarget wh sy).scale (1/10)⟩) ∧
    specStickyTarget wh sy = ⟨30, 56 - sy / wh * 100, 0, 0, 1⟩ := by
  have h' : sy < STICKY_THRESHOLD := by
    simpa [STICKY_THRESHOLD] using h
  refine ⟨?_, ?_, rfl⟩
  · intro hf
    rw [animateTick_sticky_snap wh sh sy s h' hf]
    rfl
  · intro hf
    rw [animateTick_sticky_blend wh sh sy s h' hf]
    rfl

/-- C2 witness: the theorem applied at viewport height 800 and scroll
offset 100, flag clear. -/
theorem c2_sticky_target_witness :
    (animateTick 800 3000 100 ⟨⟨0, 0, 0, 0, 0⟩, false⟩).current =
      specStickyTarget 800 100 :=
  (c2_sticky_target 800 3000 100 ⟨⟨0, 0, 0, 0, 0⟩, false⟩ (by norm_num)).1 rfl

/-- C7: the normalized scroll progress handed to the waypoint lookup is
always clamped into [0, 1], and a zero or negative scrollable range
(total scrollable height − viewport height − 150 ≤ 0) is treated as
progress 0 instead of dividing. -/
theorem c7_progress_guard (wh sh sy : ℚ) :
    (0 ≤ clampedProgress wh sh sy ∧ clampedProgress wh sh sy ≤ 1) ∧
    (sh - wh - STICKY_THRESHOLD ≤ 0 →
       scrollProgressOf wh sh sy = 0 ∧ clampedProgress wh sh sy = 0) := by
  constructor
  · exact ⟨le_max_left 0 _, max_le (by norm_num) (min_le_left 1 _)⟩
  · intro h
    have hz : scrollProgressOf wh sh sy = 0 := by
      simp only [scrollProgressOf]
      rw [if_neg (not_lt.mpr h)]
    refine ⟨hz, ?_⟩
    simp [clampedProgress, hz]

/-- C7 witness: the theorem applied with a negative scrollable range
(viewport 800, total height 900, so range = 900 − 800 − 150 < 0). -/
theorem c7_progress_guard_witness :
    (0 ≤ clampedProgress 800 900 500 ∧ clampedProgress 800 900 500 ≤ 1) ∧
    (scrollProgressOf 800 900 500 = 0 ∧ clampedProgress 800 900 500 = 0) :=
  ⟨(c7_progress_guard 800 900 500).1,
   (c7_progress_guard 800 900 500).2 (by norm_num [STICKY_THRESHOLD])⟩

/-- C8: the was-animating flag is set on every tick with scroll offset
at or above the 150 px threshold; on a sticky tick it stays clear if it
was clear, and if it was set it becomes clear exactly when the tick's
resulting pose has x within 0.05 of 30 and both rotations within 0.1
of 0. -/
theorem c8_flag_transitions (wh sh sy : ℚ) (s : AnimState) :
    (STICKY_THRESHOLD ≤ sy → (animateTick wh sh sy s).wasInAnimationPhase = true) ∧
    (sy < STICKY_THRESHOLD → s.wasInAnimationPhase = false →
       (animateTick wh sh sy s).wasInAnimationPhase = false) ∧
    (sy < STICKY_THRESHOLD → s.wasInAnimationPhase = true →
       ((animateTick wh sh sy s).wasInAnimationPhase = false ↔
        (|(animateTick wh sh sy s).current.x - 30| < 5/100 ∧
         |(animateTick wh sh sy s).current.rotX| < 1/10 ∧
         |(animateTick wh sh sy s).current.rotY| < 1/10))) := by
  refine ⟨?_, ?_, ?_⟩
  · intro h
    rw [animateTick_anim wh sh sy s h]
  · intro h hf
    rw [animateTick_sticky_snap wh sh sy s h hf]
  · intro h hf
    simp only [animateTick, if_pos h, hf, if_true]
    split <;> rename_i hc
    · simpa using hc
    · simpa using hc

/-- C8 witness: the theorem applied on an animation-regime tick
(scroll offset 200 ≥ 150): the flag comes out set. -/
theorem c8_flag_transitions_witness :
    (animateTick 800 2000 200 ⟨⟨0, 0, 0, 0, 0⟩, false⟩).wasInAnimationPhase = true :=
  (c8_flag_transitions 800 2000 200 ⟨⟨0, 0, 0, 0, 0⟩, false⟩).1
    (by norm_num [STICKY_THRESHOLD])

/-- C3: evaluating the target-from-scroll function at a progress
exactly equal to any waypoint's `scrollStart` yields that waypoint's
five field values exactly. -/
theorem c3_waypoint_exact (wh : ℚ) (w : Waypoint) (hw : w ∈ waypoints wh) :
    getTargetFromScroll wh w.scrollStart = poseOf w := by
  simp only [waypoints, List.mem_cons, List.not_mem_nil, or_false] at hw
  rcases hw with rfl | rfl | rfl | rfl | rfl | rfl | rfl <;>
    norm_num [getTargetFromScroll, waypoints, findBracket, easeInOutQuad, poseOf,
      Pose.mk.injEq]

/-- C3 witness: the theorem applied to the second waypoint at viewport
height 800. -/
theorem c3_waypoint_exact_witness :
    getTargetFromScroll 800 (Waypoint.mk (8/100) 85 35 45 90 1).scrollStart =
      poseOf (Waypoint.mk (8/100) 85 35 45 90 1) :=
  c3_waypoint_exact 800 (Waypoint.mk (8/100) 85 35 45 90 1)
    (by norm_num [waypoints])

/-- C4: for any progress at or beyond the last waypoint's
`scrollStart`, up to and including 1, the target-from-scroll function
returns exactly the last waypoint's five field values. -/
theorem c4_clamp_to_last (wh p : ℚ)
    (h1 : (((waypoints wh).getLastD default)).scrollStart ≤ p) (h2 : p ≤ 1) :
    getTargetFromScroll wh p = poseOf ((waypoints wh).getLastD default) := by
  have hlast : ((waypoints wh).getLastD default) = ⟨1, 50, 92, 360, 720, 3/10⟩ := rfl
  rw [hlast] at h1 ⊢
  simp only [getTargetFromScroll]
  rw [if_pos (by simpa [waypoints] using h1)]
  rfl

/-- C4 witness: the theorem applied at progress exactly 1. -/
theorem c4_clamp_to_last_witness :
    getTargetFromScroll 800 1 = poseOf ((waypoints 800).getLastD default) :=
  c4_clamp_to_last 800 1 (by norm_num [waypoints]) le_rfl

/-- C9: from the initial state (card 1, interval running), four firings
of the auto-advance interval with no hover leave the active card at 5;
and after a hover-enter the interval is cancelled, so any number of
subsequent interval firings (with no hover-leave in between) leave the
carousel state unchanged. -/
theorem c9_carousel_auto_and_hover (evs : List CardEvent) (s : CardState)
    (h : ∀ e ∈ evs, e = CardEvent.intervalFire) :
    (List.foldl cardStep initCardState
      [CardEvent.intervalFire, CardEvent.intervalFire,
       CardEvent.intervalFire, CardEvent.intervalFire]).activeCard = 5 ∧
    List.foldl cardStep (cardStep s CardEvent.mouseEnter) evs =
      cardStep s CardEvent.mouseEnter := by
  constructor
  · rfl
  · have key : ∀ (l : List CardEvent) (t : CardState), t.autoRunning = false →
        (∀ e ∈ l, e = CardEvent.intervalFire) → List.foldl cardStep t l = t := by
      intro l
      induction l with
      | nil => intro t _ _; rfl
      | cons e tl ih =>
        intro t ht hall
        have he : e = CardEvent.intervalFire := hall e (List.mem_cons_self e tl)
        subst he
        have hstep : cardStep t CardEvent.intervalFire = t := by
          simp [cardStep, autoSwitchFire, ht]
        rw [List.foldl_cons, hstep]
        exact ih t ht (fun e hmem => hall e (List.mem_cons_of_mem _ hmem))
    exact key evs _ (by simp [cardStep, handleMouseEnter, stopAutoSwitch]) h

/-- C9 witness: the theorem applied with one interval firing after a
hover-enter from the initial state. -/
theorem c9_carousel_auto_and_hover_witness :
    (List.foldl cardStep initCardState
      [CardEvent.intervalFire, CardEvent.intervalFire,
       CardEvent.intervalFire, CardEvent.intervalFire]).activeCard = 5 ∧
    List.foldl cardStep (cardStep initCardState CardEvent.mouseEnter)
        [CardEvent.intervalFire] =
      cardStep initCardState CardEvent.mouseEnter :=
  c9_carousel_auto_and_hover [CardEvent.intervalFire] initCardState (by simp)

/-- C10: every carousel event (interval firing, wheel in either
direction, hover enter/leave) keeps the active card in {1,…,6}, and the
steps wrap: advancing from 6 gives 1 and stepping back from 1 gives
6. -/
theorem c10_card_range (s : CardState) (e : CardEvent)
    (h1 : 1 ≤ s.activeCard) (h6 : s.activeCard ≤ 6) :
    (1 ≤ (cardStep s e).activeCard ∧ (cardStep s e).activeCard ≤ 6) ∧
    advanceCard 6 = 1 ∧ retreatCard 1 = 6 := by
  refine ⟨?_, by decide, by decide⟩
  cases e <;>
    simp only [cardStep, autoSwitchFire, handleWheel, handleMouseEnter, handleMouseLeave,
      startAutoSwitch, stopAutoSwitch, advanceCard, retreatCard] <;>
    (try split_ifs) <;> (try simp) <;> omega

/-- C10 witness: the theorem applied to the wrap-around firing from
card 6. -/
theorem c10_card_range_witness :
    (1 ≤ (cardStep ⟨6, false, 0, true⟩ CardEvent.intervalFire).activeCard ∧
     (cardStep ⟨6, false, 0, true⟩ CardEvent.intervalFire).activeCard ≤ 6) ∧
    advanceCard 6 = 1 ∧ retreatCard 1 = 6 :=
  c10_card_range ⟨6, false, 0, true⟩ CardEvent.intervalFire (by norm_num) (by norm_num)

/-- Closed form of the iterated blend: the error to the target shrinks
by the factor `1 − f` each tick. -/
theorem blendIter_sub_target (f t x : ℚ) (n : ℕ) :
    blendIter f t x n - t = (1 - f) ^ n * (x - t) := by
  induction n with
  | zero => simp [blendIter]
  | succ n ih =>
    show lerp (blendIter f t x n) t f - t = _
    unfold lerp
    linear_combination (1 - f) * ih

/-- C6 counterexample: the claim "each pose field … is within 0.01 of
the target after at most 60 ticks" fails for an unbounded initial
distance.  With the rotation blend factor 0.05 of the animation regime,
a field starting at 720 (the last waypoint's rotY) with target 0 is
still farther than 0.01 from the target after 60 ticks (it is ≈33). -/
theorem c6_counterexample :
    1/100 < |blendIter (5/100) 0 720 60 - 0| := by
  have h := blendIter_sub_target (5/100) 0 720 60
  rw [h]
  rw [abs_of_nonneg (by positivity)]
  norm_num

/-- C6 (amended): under any of the per-tick blend factors (all lie in
[0.05, 0.1]), each field converges monotonically toward a fixed target
— the distance to the target never increases tick to tick, and one tick
reaches the target only from the target itself — and any field starting
within 0.2 of its target is within 0.01 of it after at most 60 ticks.
(An arbitrary initial distance need not reach 0.01 within 60 ticks.) -/
theorem c6_blend_convergence (f t x : ℚ) (n : ℕ)
    (hf1 : 1/20 ≤ f) (hf2 : f ≤ 1/10) :
    |blendIter f t x (n + 1) - t| ≤ |blendIter f t x n - t| ∧
    (blendIter f t x 1 = t ↔ x = t) ∧
    (|x - t| ≤ 1/5 → |blendIter f t x 60 - t| ≤ 1/100) := by
  have hstep : ∀ m, blendIter f t x (m + 1) - t = (1 - f) * (blendIter f t x m - t) := by
    intro m
    show lerp (blendIter f t x m) t f - t = _
    unfold lerp
    ring
  refine ⟨?_, ?_, ?_⟩
  · rw [hstep n, abs_mul, abs_of_nonneg (by linarith : (0:ℚ) ≤ 1 - f)]
    exact mul_le_of_le_one_left (abs_nonneg _) (by linarith)
  · exact lerp_eq_target_iff x t f (by intro h; rw [h] at hf2; norm_num at hf2)
  · intro hx
    rw [blendIter_sub_target, abs_mul, abs_pow,
      abs_of_nonneg (by linarith : (0:ℚ) ≤ 1 - f)]
    have h1 : (1 - f) ^ 60 ≤ (19/20 : ℚ) ^ 60 :=
      pow_le_pow_left₀ (by linarith) (by linarith) 60
    have h2 : ((19:ℚ)/20) ^ 60 ≤ 1/20 := by norm_num
    calc (1 - f) ^ 60 * |x - t| ≤ (19/20 : ℚ) ^ 60 * (1/5) := by
          apply mul_le_mul h1 hx (abs_nonneg _) (by positivity)
      _ ≤ (1/20 : ℚ) * (1/5) := by nlinarith
      _ ≤ 1/100 := by norm_num

/-- C6 witness: the amended theorem applied with the slowest factor
0.05, target 0 and initial value 0.2. -/
theorem c6_blend_convergence_witness :
    |blendIter (1/20) 0 (1/5) (0 + 1) - 0| ≤ |blendIter (1/20) 0 (1/5) 0 - 0| ∧
    (blendIter (1/20) 0 (1/5) 1 = 0 ↔ (1/5 : ℚ) = 0) ∧
    (|(1/5 : ℚ) - 0| ≤ 1/5 → |blendIter (1/20) 0 (1/5) 60 - 0| ≤ 1/100) :=
  c6_blend_convergence (1/20) 0 (1/5) 0 (by norm_num) (by norm_num)

/-- The quadratic ease-in-out curve is non-decreasing on [0, 1]. -/
theorem easeInOutQuad_mono (p q : ℚ) (h0 : 0 ≤ p) (hpq : p ≤ q) (h1 : q ≤ 1) :
    easeInOutQuad p ≤ easeInOutQuad q := by
  unfold easeInOutQuad
  split_ifs with hp hq hq
  · nlinarith
  · nlinarith [sq_nonneg (-2 * q + 2)]
  · linarith
  · nlinarith

/-- The quadratic ease-in-out curve maps [0, 1] into [0, 1]. -/
theorem easeInOutQuad_bounds (p : ℚ) (h0 : 0 ≤ p) (h1 : p ≤ 1) :
    0 ≤ easeInOutQuad p ∧ easeInOutQuad p ≤ 1 := by
  unfold easeInOutQuad
  split_ifs with hp
  · constructor <;> nlinarith
  · constructor <;> nlinarith

/-- When the bracket scan returns a pair with positive range and the
progress is before the last waypoint, the target is the eased linear
interpolation of the five fields between the bracketing waypoints. -/
theorem getTarget_interval (wh p : ℚ) (A B : Waypoint)
    (hbr : findBracket (waypoints wh) p = some (A, B))
    (hlast : p < 1) (hAB : A.scrollStart < B.scrollStart) :
    getTargetFromScroll wh p =
      ⟨A.x + (B.x - A.x) * easeInOutQuad ((p - A.scrollStart) / (B.scrollStart - A.scrollStart)),
       A.y + (B.y - A.y) * easeInOutQuad ((p - A.scrollStart) / (B.scrollStart - A.scrollStart)),
       A.rotX + (B.rotX - A.rotX) *
         easeInOutQuad ((p - A.scrollStart) / (B.scrollStart - A.scrollStart)),
       A.rotY + (B.rotY - A.rotY) *
         easeInOutQuad ((p - A.scrollStart) / (B.scrollStart - A.scrollStart)),
       A.scale + (B.scale - A.scale) *
         easeInOutQuad ((p - A.scrollStart) / (B.scrollStart - A.scrollStart))⟩ := by
  simp only [getTargetFromScroll, hbr, Option.getD_some]
  rw [if_neg (by simp only [waypoints]; norm_num; exact hlast)]
  rw [if_neg (not_le.mpr (by linarith))]

/-- A lerp between `a` and `b` is directed the way its eased fractions
are ordered. -/
theorem lerpDirected (a b t1 t2 : ℚ) (h : t1 ≤ t2) :
    fieldDirected a b (a + (b - a) * t1) (a + (b - a) * t2) := by
  constructor <;> intro hab <;> nlinarith

/-- A lerp with fraction in [0, 1] stays between its endpoints. -/
theorem lerpBetween (a b t : ℚ) (h0 : 0 ≤ t) (h1 : t ≤ 1) :
    fieldBetween a b (a + (b - a) * t) := by
  constructor <;> intro hab <;> constructor <;> nlinarith

/-- Monotonicity and no-overshoot of the eased interpolation between a
fixed bracketing pair, given that the scan brackets both progress
values with that pair. -/
theorem c5_core (wh p q : ℚ) (A B : Waypoint)
    (hbrp : findBracket (waypoints wh) p = some (A, B))
    (hbrq : findBracket (waypoints wh) q = some (A, B))
    (hAB : A.scrollStart < B.scrollStart) (hB1 : B.scrollStart ≤ 1)
    (hp : A.scrollStart ≤ p) (hpq : p ≤ q) (hq : q < B.scrollStart) :
    poseDirected A B (getTargetFromScroll wh p) (getTargetFromScroll wh q) ∧
    poseBetween A B (getTargetFromScroll wh p) := by
  have hp1 : p < 1 := by linarith
  have hq1 : q < 1 := by linarith
  have hr : 0 < B.scrollStart - A.scrollStart := by linarith
  rw [getTarget_interval wh p A B hbrp hp1 hAB, getTarget_interval wh q A B hbrq hq1 hAB]
  have hprog0 : 0 ≤ (p - A.scrollStart) / (B.scrollStart - A.scrollStart) :=
    div_nonneg (by linarith) hr.le
  have hprog1 : (p - A.scrollStart) / (B.scrollStart - A.scrollStart) ≤ 1 := by
    rw [div_le_one hr]; linarith
  have hmono : (p - A.scrollStart) / (B.scrollStart - A.scrollStart) ≤
      (q - A.scrollStart) / (B.scrollStart - A.scrollStart) := by
    gcongr
  have hE : easeInOutQuad ((p - A.scrollStart) / (B.scrollStart - A.scrollStart)) ≤
      easeInOutQuad ((q - A.scrollStart) / (B.scrollStart - A.scrollStart)) := by
    apply easeInOutQuad_mono _ _ hprog0 hmono
    rw [div_le_one hr]; linarith
  obtain ⟨hE0, hE1⟩ := easeInOutQuad_bounds _ hprog0 hprog1
  exact ⟨⟨lerpDirected _ _ _ _ hE, lerpDirected _ _ _ _ hE, lerpDirected _ _ _ _ hE,
          lerpDirected _ _ _ _ hE, lerpDirected _ _ _ _ hE⟩,
         ⟨lerpBetween _ _ _ hE0 hE1, lerpBetween _ _ _ hE0 hE1, lerpBetween _ _ _ hE0 hE1,
          lerpBetween _ _ _ hE0 hE1, lerpBetween _ _ _ hE0 hE1⟩⟩

/-- C5: for any pair of consecutive waypoints and any two progress
values `p ≤ q` inside that interval, each of the five fields of the
eased interpolated target is ordered from `p` to `q` the way the field
moves from the lower to the upper waypoint (monotonic, in either
direction), and the target at `p` never overshoots the bracketing
waypoints' values. -/
theorem c5_interval_monotone (wh p q : ℚ) (A B : Waypoint)
    (hmem : (A, B) ∈ (waypoints wh).zip (waypoints wh).tail)
    (hp : A.scrollStart ≤ p) (hpq : p ≤ q) (hq : q < B.scrollStart) :
    poseDirected A B (getTargetFromScroll wh p) (getTargetFromScroll wh q) ∧
    poseBetween A B (getTargetFromScroll wh p) := by
  simp only [waypoints, List.tail_cons, List.zip_cons_cons, List.zip_nil_right,
    List.mem_cons, List.not_mem_nil, or_false, Prod.mk.injEq] at hmem
  rcases hmem with ⟨rfl, rfl⟩ | ⟨rfl, rfl⟩ | ⟨rfl, rfl⟩ | ⟨rfl, rfl⟩ | ⟨rfl, rfl⟩ | ⟨rfl, rfl⟩ <;>
    dsimp only at hp hq
  · refine c5_core wh p q _ _ ?_ ?_ (by norm_num) (by norm_num) hp hpq hq <;>
      (simp only [waypoints, findBracket]
       rw [if_pos ⟨by linarith, by linarith⟩])
  · refine c5_core wh p q _ _ ?_ ?_ (by norm_num) (by norm_num) hp hpq hq <;>
      (simp only [waypoints, findBracket]
       rw [if_neg (by rintro ⟨-, hlt⟩; linarith),
           if_pos ⟨by linarith, by linarith⟩])
  · refine c5_core wh p q _ _ ?_ ?_ (by norm_num) (by norm_num) hp hpq hq <;>
      (simp only [waypoints, findBracket]
       rw [if_neg (by rintro ⟨-, hlt⟩; linarith),
           if_neg (by rintro ⟨-, hlt⟩; linarith),
           if_pos ⟨by linarith, by linarith⟩])
  · refine c5_core wh p q _ _ ?_ ?_ (by norm_num) (by norm_num) hp hpq hq <;>
      (simp only [waypoints, findBracket]
       rw [if_neg (by rintro ⟨-, hlt⟩; linarith),
           if_neg (by rintro ⟨-, hlt⟩; linarith),
           if_neg (by rintro ⟨-, hlt⟩; linarith),
           if_pos ⟨by linarith, by linarith⟩])
  · refine c5_core wh p q _ _ ?_ ?_ (by norm_num) (by norm_num) hp hpq hq <;>
      (simp only [waypoints, findBracket]
       rw [if_neg (by rintro ⟨-, hlt⟩; linarith),
           if_neg (by rintro ⟨-, hlt⟩; linarith),
           if_neg (by rintro ⟨-, hlt⟩; linarith),
           if_neg (by rintro ⟨-, hlt⟩; linarith),
           if_pos ⟨by linarith, by linarith⟩])
  · refine c5_core wh p q _ _ ?_ ?_ (by norm_num) (by norm_num) hp hpq hq <;>
      (simp only [waypoints, findBracket]
       rw [if_neg (by rintro ⟨-, hlt⟩; linarith),
           if_neg (by rintro ⟨-, hlt⟩; linarith),
           if_neg (by rintro ⟨-, hlt⟩; linarith),
           if_neg (by rintro ⟨-, hlt⟩; linarith),
           if_neg (by rintro ⟨-, hlt⟩; linarith),
           if_pos ⟨by linarith, by linarith⟩])

/-- C5 witness: the theorem applied on the second interval
(scrollStart 0.08 to 0.28) at progresses 0.1 and 0.2. -/
theorem c5_interval_monotone_witness :
    poseDirected ⟨8/100, 85, 35, 45, 90, 1⟩ ⟨28/100, 15, 55, 90, 180, 1⟩
      (getTargetFromScroll 800 (1/10)) (getTargetFromScroll 800 (2/10)) ∧
    poseBetween ⟨8/100, 85, 35, 45, 90, 1⟩ ⟨28/100, 15, 55, 90, 180, 1⟩
      (getTargetFromScroll 800 (1/10)) :=
  c5_interval_monotone 800 (1/10) (2/10) ⟨8/100, 85, 35, 45, 90, 1⟩
    ⟨28/100, 15, 55, 90, 180, 1⟩ (by simp [waypoints])
    (by norm_num) (by norm_num) (by norm_num)

end Vprops
